import Mathlib

/-!
Verification development for the Gamepad widget of the GamePlay UI fragment
(src/gameplay/src/Theme.h, which contains the Theme header followed by the
Gamepad implementation).  C++ `float` and `int` quantities are modelled as
real numbers; `unsigned int` contact indices are modelled as `Option ℕ`,
with `none` standing for `INVALID_CONTACT_INDEX` (the touch handler only
ever stores a contact index that passed the `contactIndex < MAX_TOUCH_INPUTS`
guard, so a stored index never collides with the invalid sentinel).
Division follows Lean's convention `x / 0 = 0`; every theorem that depends
on a division carries the positivity hypothesis the claim states.
-/

namespace GamePlay

noncomputable section

/-- Two-dimensional vector (external math type `Vector2`, float fields). -/
@[ext]
structure Vector2 where
  x : ℝ
  y : ℝ

/-- `Vector2::scale(s)`: multiplies each component by `s`. -/
def Vector2.scale (s : ℝ) (v : Vector2) : Vector2 :=
  ⟨v.x * s, v.y * s⟩

/-- Squared Euclidean length of a vector. -/
def Vector2.normSq (v : Vector2) : ℝ :=
  v.x * v.x + v.y * v.y

/-- `Vector2::normalize()` from the external math library: the zero vector is
left unchanged, any other vector is divided by its Euclidean length. -/
def Vector2.normalize (v : Vector2) : Vector2 :=
  if v.x * v.x + v.y * v.y = 0 then v
  else Vector2.scale (1 / Real.sqrt (v.x * v.x + v.y * v.y)) v

/-- Axis-aligned rectangle (the `Rect` parameters of `setButton`/`setJoystick`
and the `_region` fields, float fields). -/
structure Rect where
  x : ℝ
  y : ℝ
  width : ℝ
  height : ℝ

/-- UV texture coordinates of a rectangular image. -/
structure UVs where
  u1 : ℝ
  v1 : ℝ
  u2 : ℝ
  v2 : ℝ

/-- `Gamepad::ButtonState`. -/
inductive ButtonState where
  | BUTTON_RELEASED
  | BUTTON_PRESSED
deriving DecidableEq

/-- `Touch::TouchEvent` values the Gamepad touch handler switches on. -/
inductive TouchEvent where
  | TOUCH_PRESS
  | TOUCH_MOVE
  | TOUCH_RELEASE
deriving DecidableEq

/-- Modelled from the spec: `MAX_TOUCH_INPUTS` is declared in `Gamepad.h`,
which is not part of this source fragment.  The touch handler only compares
the contact index against it, so any fixed positive bound is faithful; we use
the engine's touch capacity of 4. -/
def MAX_TOUCH_INPUTS : ℕ := 4

/-- State of one `Gamepad::Button`. -/
structure Button where
  pressed : ButtonState
  defaultTextureEnabled : Bool
  focusTextureEnabled : Bool
  contactIndex : Option ℕ
  region : Rect
  defaultTexCoord : UVs
  focusTexCoord : UVs

/-- `Gamepad::Button::Button()`: released, no textures, invalid contact. -/
def Button.init : Button :=
  { pressed := .BUTTON_RELEASED
    defaultTextureEnabled := false
    focusTextureEnabled := false
    contactIndex := none
    region := ⟨0, 0, 0, 0⟩
    defaultTexCoord := ⟨0, 0, 0, 0⟩
    focusTexCoord := ⟨0, 0, 0, 0⟩ }

/-- State of one `Gamepad::Joystick`. -/
structure Joystick where
  displacement : Vector2
  direction : Vector2
  radius : ℝ
  regionInner : Rect
  regionOuter : Rect
  defaultTexCoordInner : UVs
  defaultTexCoordOuter : UVs
  defaultTextureInnerEnabled : Bool
  defaultTextureOuterEnabled : Bool
  contactIndex : Option ℕ

/-- `Gamepad::Joystick::Joystick()`: zero vectors, zero radius, no textures,
invalid contact. -/
def Joystick.init : Joystick :=
  { displacement := ⟨0, 0⟩
    direction := ⟨0, 0⟩
    radius := 0
    regionInner := ⟨0, 0, 0, 0⟩
    regionOuter := ⟨0, 0, 0, 0⟩
    defaultTexCoordInner := ⟨0, 0, 0, 0⟩
    defaultTexCoordOuter := ⟨0, 0, 0, 0⟩
    defaultTextureInnerEnabled := false
    defaultTextureOuterEnabled := false
    contactIndex := none }

/-- The Gamepad state the claims are about: the texture dimensions used for
UV generation and the button/joystick arrays. -/
structure Gamepad where
  textureWidth : ℝ
  textureHeight : ℝ
  buttons : List Button
  joysticks : List Joystick

/-- `Gamepad::Gamepad(texturePath, joysticks, buttons)`: arrays of
default-constructed joysticks and buttons. -/
def Gamepad.init (tw th : ℝ) (joysticks buttons : ℕ) : Gamepad :=
  { textureWidth := tw
    textureHeight := th
    buttons := List.replicate buttons Button.init
    joysticks := List.replicate joysticks Joystick.init }

/-- The UV computation `setButton`/`setJoystick` perform for a texture
region (`u1 = x/tw`, `v1 = 1 - y/th`, `u2 = u1 + width/tw`,
`v2 = v1 - height/th`); the same four lines are repeated verbatim at all
four call sites in the source. -/
def regionToUVs (tw th : ℝ) (r : Rect) : UVs :=
  let u1 := r.x / tw
  let v1 := 1 - r.y / th
  { u1 := u1, v1 := v1, u2 := u1 + r.width / tw, v2 := v1 - r.height / th }

/-- In-place update of the `i`-th entry of a list (models writing through
`_buttons[i]` / `_joysticks[i]`). -/
def updateNth {α : Type} : List α → ℕ → (α → α) → List α
  | [], _, _ => []
  | a :: l, 0, f => f a :: l
  | a :: l, n + 1, f => a :: updateNth l n f

/-- The per-button effect of `Gamepad::setButton` (each non-null `Rect*`
argument updates the corresponding field). -/
def Button.applySet (tw th : ℝ)
    (bounds defaultTextureRegion focusTextureRegion : Option Rect)
    (b : Button) : Button :=
  let b := match bounds with
    | some r => { b with region := r }
    | none => b
  let b := match defaultTextureRegion with
    | some r => { b with defaultTexCoord := regionToUVs tw th r
                         defaultTextureEnabled := true }
    | none => b
  match focusTextureRegion with
    | some r => { b with focusTexCoord := regionToUVs tw th r
                         focusTextureEnabled := true }
    | none => b

/-- `Gamepad::setButton`; `none` models a failed `assert(buttonId < _buttonCount)`. -/
def Gamepad.setButton (g : Gamepad) (buttonId : ℕ)
    (bounds defaultTextureRegion focusTextureRegion : Option Rect) :
    Option Gamepad :=
  if buttonId < g.buttons.length then
    let f := Button.applySet g.textureWidth g.textureHeight
      bounds defaultTextureRegion focusTextureRegion
    some { g with buttons := updateNth g.buttons buttonId f }
  else none

/-- The per-joystick effect of `Gamepad::setJoystick`: the radius is stored
unconditionally, each non-null `Rect*` argument updates its field. -/
def Joystick.applySet (tw th : ℝ)
    (regionInner textureRegionInner regionOuter textureRegionOuter : Option Rect)
    (radius : ℝ) (j : Joystick) : Joystick :=
  let j := { j with radius := radius }
  let j := match regionInner with
    | some r => { j with regionInner := r }
    | none => j
  let j := match textureRegionInner with
    | some r => { j with defaultTexCoordInner := regionToUVs tw th r
                         defaultTextureInnerEnabled := true }
    | none => j
  let j := match regionOuter with
    | some r => { j with regionOuter := r }
    | none => j
  match textureRegionOuter with
    | some r => { j with defaultTexCoordOuter := regionToUVs tw th r
                         defaultTextureOuterEnabled := true }
    | none => j

/-- `Gamepad::setJoystick`; `none` models a failed `assert(joystickId < _joystickCount)`. -/
def Gamepad.setJoystick (g : Gamepad) (joystickId : ℕ)
    (regionInner textureRegionInner regionOuter textureRegionOuter : Option Rect)
    (radius : ℝ) : Option Gamepad :=
  if joystickId < g.joysticks.length then
    let f := Joystick.applySet g.textureWidth g.textureHeight
      regionInner textureRegionInner regionOuter textureRegionOuter radius
    some { g with joysticks := updateNth g.joysticks joystickId f }
  else none

/-- `Gamepad::getButtonState`; `none` models a failed `assert(index < _buttonCount)`. -/
def Gamepad.getButtonState (g : Gamepad) (index : ℕ) : Option ButtonState :=
  if h : index < g.buttons.length then some (g.buttons.get ⟨index, h⟩).pressed
  else none

/-- `Gamepad::getJoystickState`; `none` models a failed `assert(index < _joystickCount)`. -/
def Gamepad.getJoystickState (g : Gamepad) (index : ℕ) : Option Vector2 :=
  if h : index < g.joysticks.length then some (g.joysticks.get ⟨index, h⟩).direction
  else none

/-- `Gamepad::isJoystickActive` (`_contactIndex != INVALID_CONTACT_INDEX`);
`none` models a failed `assert(index < _joystickCount)`. -/
def Gamepad.isJoystickActive (g : Gamepad) (index : ℕ) : Option Bool :=
  if h : index < g.joysticks.length then
    some (g.joysticks.get ⟨index, h⟩).contactIndex.isSome
  else none

/-- The per-button effect of one iteration of the button loop in
`Gamepad::touch` (the switch handles `TOUCH_PRESS` and `TOUCH_RELEASE`;
`TOUCH_MOVE` leaves buttons unchanged). -/
def touchButton (x y : ℝ) (touchEvent : TouchEvent) (contactIndex : ℕ)
    (b : Button) : Button :=
  match touchEvent with
  | .TOUCH_PRESS =>
    if b.contactIndex = none then
      if x ≥ b.region.x ∧ x ≤ b.region.x + b.region.width ∧
          y ≥ b.region.y ∧ y ≤ b.region.y + b.region.height then
        { b with contactIndex := some contactIndex
                 pressed := .BUTTON_PRESSED }
      else b
    else b
  | .TOUCH_MOVE => b
  | .TOUCH_RELEASE =>
    if b.contactIndex = some contactIndex then
      { b with contactIndex := none
               pressed := .BUTTON_RELEASED }
    else b

/-- The `TOUCH_PRESS` case of the joystick loop in `Gamepad::touch`:
activate the joystick when the touch lies inside the `2*radius`-sided box
around the inner region position and the joystick is not already bound. -/
def touchJoystickPress (x y : ℝ) (contactIndex : ℕ) (j : Joystick) : Joystick :=
  let bx := j.regionInner.x
  let bY := j.regionInner.y
  let bradius := j.radius
  if x ≥ bx - bradius ∧ x ≤ bx + bradius ∧
      y ≥ bY - bradius ∧ y ≤ bY + bradius ∧ j.contactIndex = none then
    { j with contactIndex := some contactIndex
             displacement := ⟨0, 0⟩
             direction := ⟨0, 0⟩ }
  else j

/-- The `TOUCH_MOVE` case of the joystick loop in `Gamepad::touch`:
for the joystick bound to this contact, recompute the direction (clamped to
the bounding circle) and store the unclamped displacement. -/
def touchJoystickMove (x y : ℝ) (contactIndex : ℕ) (j : Joystick) : Joystick :=
  if j.contactIndex = some contactIndex then
    let displacementX := x - j.regionInner.x
    let displacementY := y - j.regionInner.y
    let radius := j.radius
    let direction :=
      if displacementX * displacementX + displacementY * displacementY ≤
          radius * radius then
        Vector2.scale (1 / radius) ⟨displacementX, -displacementY⟩
      else
        Vector2.normalize
          (Vector2.scale radius (Vector2.normalize ⟨displacementX, -displacementY⟩))
    { j with direction := direction
             displacement := ⟨displacementX, displacementY⟩ }
  else j

/-- The per-joystick effect of one iteration of the joystick loop in
`Gamepad::touch`.  The `TOUCH_PRESS` case has no `break` and falls through
into the `TOUCH_MOVE` case. -/
def touchJoystick (x y : ℝ) (touchEvent : TouchEvent) (contactIndex : ℕ)
    (j : Joystick) : Joystick :=
  match touchEvent with
  | .TOUCH_PRESS => touchJoystickMove x y contactIndex (touchJoystickPress x y contactIndex j)
  | .TOUCH_MOVE => touchJoystickMove x y contactIndex j
  | .TOUCH_RELEASE =>
    if j.contactIndex = some contactIndex then
      { j with contactIndex := none
               displacement := ⟨0, 0⟩
               direction := ⟨0, 0⟩ }
    else j

/-- `Gamepad::touch(x, y, touchEvent, contactIndex)`: returns immediately
when `contactIndex >= MAX_TOUCH_INPUTS`, otherwise runs the button loop and
the joystick loop (each iteration only reads and writes its own element). -/
def Gamepad.touch (g : Gamepad) (x y : ℝ) (touchEvent : TouchEvent)
    (contactIndex : ℕ) : Gamepad :=
  if contactIndex ≥ MAX_TOUCH_INPUTS then g
  else
    { g with buttons := g.buttons.map (touchButton x y touchEvent contactIndex)
             joysticks := g.joysticks.map (touchJoystick x y touchEvent contactIndex) }

/-- The offset from the inner region position at which `Gamepad::draw`
centres the inner joggle: the displacement itself when it lies within the
radius, otherwise the displacement rescaled onto the circle of that radius. -/
def Joystick.drawInnerOffset (j : Joystick) : Vector2 :=
  let displacementX := j.displacement.x
  let displacementY := j.displacement.y
  let radius := j.radius
  if displacementX * displacementX + displacementY * displacementY ≤
      radius * radius then
    ⟨displacementX, displacementY⟩
  else
    Vector2.scale radius (Vector2.normalize ⟨displacementX, displacementY⟩)

/-- The centre of the inner joggle as drawn by `Gamepad::draw` (before the
final half-width/half-height adjustment that converts the centre to the
sprite's corner position). -/
def Joystick.drawInnerCenter (j : Joystick) : Vector2 :=
  ⟨j.regionInner.x + j.drawInnerOffset.x, j.regionInner.y + j.drawInnerOffset.y⟩

/-- The corner position actually passed to the sprite batch for the inner
joggle (`x - width * 0.5`, `y - height * 0.5`). -/
def Joystick.drawInnerPosition (j : Joystick) : Vector2 :=
  ⟨j.drawInnerCenter.x - j.regionInner.width * 0.5,
   j.drawInnerCenter.y - j.regionInner.height * 0.5⟩

/-- One call on the public mutating interface of `Gamepad`. -/
inductive GamepadOp where
  | touch (x y : ℝ) (touchEvent : TouchEvent) (contactIndex : ℕ)
  | setButton (buttonId : ℕ) (bounds defaultTextureRegion focusTextureRegion : Option Rect)
  | setJoystick (joystickId : ℕ)
      (regionInner textureRegionInner regionOuter textureRegionOuter : Option Rect)
      (radius : ℝ)

/-- Apply one call; `none` models an assertion failure. -/
def applyOp (g : Gamepad) : GamepadOp → Option Gamepad
  | .touch x y touchEvent c => some (g.touch x y touchEvent c)
  | .setButton i bounds dtr ftr => g.setButton i bounds dtr ftr
  | .setJoystick i ri tri ro tro r => g.setJoystick i ri tri ro tro r

/-- Apply a finite sequence of calls. -/
def applyOps (g : Gamepad) : List GamepadOp → Option Gamepad
  | [] => some g
  | op :: ops =>
    match applyOp g op with
    | some g' => applyOps g' ops
    | none => none

/-! Small concrete states used to instantiate the theorems. -/

/-- A button whose region is the rectangle `[10, 40] × [20, 60]`. -/
def buttonEx : Button := { Button.init with region := ⟨10, 20, 30, 40⟩ }

/-- An unbound joystick of radius 5 centred at the origin. -/
def joystickEx : Joystick := { Joystick.init with radius := 5 }

/-- The same joystick, bound to contact 0. -/
def joystickBound : Joystick := { joystickEx with contactIndex := some 0 }

/-- A gamepad with one unbound button and one unbound joystick over a
64 × 64 texture. -/
def gamepadEx : Gamepad := ⟨64, 64, [buttonEx], [joystickEx]⟩

/-- A gamepad whose button and joystick are both bound to contact 0. -/
def gamepadBound : Gamepad :=
  ⟨64, 64,
   [{ buttonEx with contactIndex := some 0, pressed := .BUTTON_PRESSED }],
   [joystickBound]⟩

/-- The joystick obtained from `joystickEx` by a press-activation at `(3, 4)`
with contact 0 (fall-through into the move case computes the displacement and
direction). -/
def joystickC6 : Joystick :=
  { joystickEx with contactIndex := some 0
                    displacement := ⟨3, 4⟩
                    direction := ⟨3 / 5, -(4 / 5)⟩ }

/-- A joystick with inner texture enabled, radius 5 and displacement `(3, 4)`. -/
def joystickC4 : Joystick :=
  { Joystick.init with radius := 5
                       displacement := ⟨3, 4⟩
                       defaultTextureInnerEnabled := true }

/-- The button produced by `setButton` with default texture region
`(0, 0, 64, 64)` on the 64 × 64 texture. -/
def buttonC3w : Button := Button.applySet 64 64 none (some ⟨0, 0, 64, 64⟩) none buttonEx

/-- The gamepad produced from `gamepadEx` by that `setButton` call. -/
def gamepadC3w : Gamepad := ⟨64, 64, [buttonC3w], [joystickEx]⟩

/-- The button produced by `setButton` with default texture region
`(128, 0, 0, 0)`, which lies outside the 64 × 64 texture. -/
def buttonC3cex : Button := Button.applySet 64 64 none (some ⟨128, 0, 0, 0⟩) none buttonEx

/-- The gamepad produced from `gamepadEx` by that out-of-texture `setButton` call. -/
def gamepadC3cex : Gamepad := ⟨64, 64, [buttonC3cex], [joystickEx]⟩

/-- All four UV coordinates lie in the unit interval. -/
def uvInUnit (uv : UVs) : Prop :=
  0 ≤ uv.u1 ∧ uv.u1 ≤ 1 ∧ 0 ≤ uv.v1 ∧ uv.v1 ≤ 1 ∧
  0 ≤ uv.u2 ∧ uv.u2 ≤ 1 ∧ 0 ≤ uv.v2 ∧ uv.v2 ≤ 1

/-- Every joystick's direction vector has squared magnitude at most 1. -/
def dirOk (g : Gamepad) : Prop :=
  ∀ j ∈ g.joysticks, j.direction.normSq ≤ 1

/-- The joystick produced by configuring a fresh one with radius 5. -/
def joystickC9 : Joystick := { Joystick.init with radius := 5 }

/-- The gamepad reached from a fresh `Gamepad.init 64 64 1 1` by one
`setJoystick` call installing radius 5. -/
def gamepadC9 : Gamepad := ⟨64, 64, [Button.init], [joystickC9]⟩

/-! General lemmas about the vector operations and list updates. -/

theorem Vector2.normSq_nonneg (v : Vector2) : 0 ≤ v.normSq := by
  have hx := mul_self_nonneg v.x
  have hy := mul_self_nonneg v.y
  unfold Vector2.normSq
  linarith

theorem Vector2.normSq_scale (s : ℝ) (v : Vector2) :
    (Vector2.scale s v).normSq = v.normSq * (s * s) := by
  unfold Vector2.scale Vector2.normSq
  ring

theorem Vector2.scale_scale (s t : ℝ) (v : Vector2) :
    Vector2.scale s (Vector2.scale t v) = Vector2.scale (t * s) v := by
  unfold Vector2.scale
  ext <;> ring

theorem Vector2.scale_one (v : Vector2) : Vector2.scale 1 v = v := by
  unfold Vector2.scale
  ext <;> ring

theorem Vector2.normalize_of_ne (v : Vector2) (hv : v.normSq ≠ 0) :
    v.normalize = Vector2.scale (1 / Real.sqrt v.normSq) v := by
  unfold Vector2.normSq at hv
  unfold Vector2.normalize Vector2.normSq
  rw [if_neg hv]

theorem Vector2.normSq_normalize (v : Vector2) (hv : v.normSq ≠ 0) :
    v.normalize.normSq = 1 := by
  have hn : 0 < v.normSq := lt_of_le_of_ne (Vector2.normSq_nonneg v) (Ne.symm hv)
  have hs : Real.sqrt v.normSq * Real.sqrt v.normSq = v.normSq :=
    Real.mul_self_sqrt (le_of_lt hn)
  rw [Vector2.normalize_of_ne v hv, Vector2.normSq_scale]
  have : 1 / Real.sqrt v.normSq * (1 / Real.sqrt v.normSq) =
      1 / (Real.sqrt v.normSq * Real.sqrt v.normSq) := by ring
  rw [this, hs]
  field_simp

theorem Vector2.normSq_normalize_le_one (v : Vector2) :
    v.normalize.normSq ≤ 1 := by
  by_cases hv : v.normSq = 0
  · unfold Vector2.normSq at hv
    unfold Vector2.normalize
    rw [if_pos hv]
    unfold Vector2.normSq at *
    rw [hv]
    norm_num
  · rw [Vector2.normSq_normalize v hv]

theorem Vector2.normalize_div_form (v : Vector2) (hv : v.normSq ≠ 0) :
    v.normalize =
      ⟨v.x / Real.sqrt v.normSq, v.y / Real.sqrt v.normSq⟩ := by
  rw [Vector2.normalize_of_ne v hv]
  unfold Vector2.scale
  ext <;> simp <;> ring

theorem Vector2.normalize_scale_normalize (v : Vector2) (r : ℝ)
    (hr : 0 < r) (hv : v.normSq ≠ 0) :
    (Vector2.scale r v.normalize).normalize = v.normalize := by
  have h1 : (Vector2.scale r v.normalize).normSq = r * r := by
    rw [Vector2.normSq_scale, Vector2.normSq_normalize v hv, one_mul]
  have h2 : (Vector2.scale r v.normalize).normSq ≠ 0 := by
    rw [h1]
    exact ne_of_gt (mul_pos hr hr)
  rw [Vector2.normalize_of_ne _ h2, h1]
  rw [show Real.sqrt (r * r) = r from Real.sqrt_mul_self (le_of_lt hr)]
  rw [Vector2.scale_scale]
  rw [mul_one_div_cancel (ne_of_gt hr), Vector2.scale_one]

theorem updateNth_length {α : Type} (l : List α) (i : ℕ) (f : α → α) :
    (updateNth l i f).length = l.length := by
  induction l generalizing i with
  | nil => rfl
  | cons a l ih =>
    cases i with
    | zero => rfl
    | succ n => simpa [updateNth] using ih n

theorem updateNth_get?_self {α : Type} (l : List α) (i : ℕ) (f : α → α) :
    (updateNth l i f).get? i = (l.get? i).map f := by
  induction l generalizing i with
  | nil => cases i <;> rfl
  | cons a l ih =>
    cases i with
    | zero => rfl
    | succ n => simpa [updateNth] using ih n

theorem forall_mem_updateNth {α : Type} {P : α → Prop} (l : List α) (i : ℕ)
    (f : α → α) (h : ∀ a ∈ l, P a) (hf : ∀ a ∈ l, P (f a)) :
    ∀ a ∈ updateNth l i f, P a := by
  induction l generalizing i with
  | nil => intro a ha; cases ha
  | cons b l ih =>
    cases i with
    | zero =>
      intro a ha
      rcases List.mem_cons.mp ha with rfl | ha
      · exact hf b (List.mem_cons_self b l)
      · exact h a (List.mem_cons_of_mem b ha)
    | succ n =>
      intro a ha
      rcases List.mem_cons.mp ha with rfl | ha
      · exact h a (List.mem_cons_self a l)
      · exact ih n (fun a ha => h a (List.mem_cons_of_mem b ha))
          (fun a ha => hf a (List.mem_cons_of_mem b ha)) a ha

theorem touch_buttons_of_lt (g : Gamepad) (x y : ℝ) (touchEvent : TouchEvent)
    (c : ℕ) (hc : c < MAX_TOUCH_INPUTS) :
    (g.touch x y touchEvent c).buttons =
      g.buttons.map (touchButton x y touchEvent c) := by
  unfold Gamepad.touch
  rw [if_neg (by omega)]

theorem touch_joysticks_of_lt (g : Gamepad) (x y : ℝ) (touchEvent : TouchEvent)
    (c : ℕ) (hc : c < MAX_TOUCH_INPUTS) :
    (g.touch x y touchEvent c).joysticks =
      g.joysticks.map (touchJoystick x y touchEvent c) := by
  unfold Gamepad.touch
  rw [if_neg (by omega)]

theorem getButtonState_of_get? (g : Gamepad) (i : ℕ) (b : Button)
    (h : g.buttons.get? i = some b) : g.getButtonState i = some b.pressed := by
  obtain ⟨hlen, hget⟩ := List.get?_eq_some.mp h
  unfold Gamepad.getButtonState
  rw [dif_pos hlen, hget]

/-- C10: a touch event whose contact index is at least `MAX_TOUCH_INPUTS`
makes `Gamepad::touch` return immediately, leaving the entire gamepad state
unchanged, whatever the event type and coordinates. -/
theorem C10_touch_out_of_range_noop (g : Gamepad) (x y : ℝ)
    (touchEvent : TouchEvent) (c : ℕ) (hc : MAX_TOUCH_INPUTS ≤ c) :
    g.touch x y touchEvent c = g := by
  unfold Gamepad.touch
  rw [if_pos hc]

theorem C10_witness :
    MAX_TOUCH_INPUTS ≤ 4 ∧ gamepadEx.touch 0 0 .TOUCH_PRESS 4 = gamepadEx :=
  ⟨by decide, C10_touch_out_of_range_noop gamepadEx 0 0 .TOUCH_PRESS 4 (by decide)⟩

/-- C7: `getButtonState`, `getJoystickState`, `isJoystickActive`, `setButton`
and `setJoystick` assert that the index is strictly below the corresponding
count; with the index in range the assertion-failure branch (`none`) is
unreachable and each getter returns the stored value for that index. -/
theorem C7_asserts_in_range (g : Gamepad) (i k : ℕ)
    (hb : i < g.buttons.length) (hk : k < g.joysticks.length)
    (bounds dtr ftr ri tri ro tro : Option Rect) (r : ℝ) :
    g.getButtonState i = some (g.buttons.get ⟨i, hb⟩).pressed ∧
    g.getJoystickState k = some (g.joysticks.get ⟨k, hk⟩).direction ∧
    g.isJoystickActive k = some (g.joysticks.get ⟨k, hk⟩).contactIndex.isSome ∧
    (g.setButton i bounds dtr ftr).isSome = true ∧
    (g.setJoystick k ri tri ro tro r).isSome = true := by
  refine ⟨?_, ?_, ?_, ?_, ?_⟩
  · unfold Gamepad.getButtonState
    rw [dif_pos hb]
  · unfold Gamepad.getJoystickState
    rw [dif_pos hk]
  · unfold Gamepad.isJoystickActive
    rw [dif_pos hk]
  · unfold Gamepad.setButton
    rw [if_pos hb]
    rfl
  · unfold Gamepad.setJoystick
    rw [if_pos hk]
    rfl

theorem C7_witness :
    (0 < gamepadEx.buttons.length ∧ 0 < gamepadEx.joysticks.length) ∧
    gamepadEx.getButtonState 0 = some ButtonState.BUTTON_RELEASED ∧
    gamepadEx.getJoystickState 0 = some ⟨0, 0⟩ ∧
    gamepadEx.isJoystickActive 0 = some false ∧
    (gamepadEx.setButton 0 none none none).isSome = true ∧
    (gamepadEx.setJoystick 0 none none none none 5).isSome = true := by
  have h := C7_asserts_in_range gamepadEx 0 0 (by decide) (by decide)
    none none none none none none none 5
  exact ⟨⟨by decide, by decide⟩, h.1, h.2.1, h.2.2.1, h.2.2.2.1, h.2.2.2.2⟩

/-- C1: a `TOUCH_PRESS` at `(x, y)` with contact `c < MAX_TOUCH_INPUTS` sets
every button with no bound contact whose region contains `(x, y)` inclusively
to `BUTTON_PRESSED` with bound contact `c` (so `getButtonState` then returns
`BUTTON_PRESSED`), while buttons whose region misses `(x, y)` or that are
bound to another contact keep their state. -/
theorem C1_press_buttons (g : Gamepad) (x y : ℝ) (c : ℕ)
    (hc : c < MAX_TOUCH_INPUTS) (i : ℕ) (b : Button)
    (hb : g.buttons.get? i = some b) :
    (b.contactIndex = none →
      b.region.x ≤ x → x ≤ b.region.x + b.region.width →
      b.region.y ≤ y → y ≤ b.region.y + b.region.height →
      (g.touch x y .TOUCH_PRESS c).buttons.get? i =
        some { b with contactIndex := some c, pressed := .BUTTON_PRESSED } ∧
      (g.touch x y .TOUCH_PRESS c).getButtonState i =
        some ButtonState.BUTTON_PRESSED) ∧
    ((¬ (b.region.x ≤ x ∧ x ≤ b.region.x + b.region.width ∧
          b.region.y ≤ y ∧ y ≤ b.region.y + b.region.height) ∨
        (∃ c', b.contactIndex = some c' ∧ c' ≠ c)) →
      (g.touch x y .TOUCH_PRESS c).buttons.get? i = some b) := by
  have hmap := touch_buttons_of_lt g x y .TOUCH_PRESS c hc
  have hres : (g.touch x y .TOUCH_PRESS c).buttons.get? i =
      some (touchButton x y .TOUCH_PRESS c b) := by
    rw [hmap, List.get?_map, hb]
    rfl
  constructor
  · intro h0 h1 h2 h3 h4
    have hbtn : touchButton x y .TOUCH_PRESS c b =
        { b with contactIndex := some c, pressed := .BUTTON_PRESSED } := by
      unfold touchButton
      rw [if_pos h0, if_pos ⟨h1, h2, h3, h4⟩]
    refine ⟨by rw [hres, hbtn], ?_⟩
    have := getButtonState_of_get? (g.touch x y .TOUCH_PRESS c) i _
      (by rw [hres, hbtn])
    exact this
  · intro hkeep
    have hbtn : touchButton x y .TOUCH_PRESS c b = b := by
      unfold touchButton
      rcases hkeep with hmiss | ⟨c', hc', hne⟩
      · by_cases h0 : b.contactIndex = none
        · rw [if_pos h0, if_neg]
          intro hin
          exact hmiss ⟨hin.1, hin.2.1, hin.2.2.1, hin.2.2.2⟩
        · rw [if_neg h0]
      · rw [if_neg (by simp [hc'])]
    rw [hres, hbtn]

/-- C5: a `TOUCH_RELEASE` with contact `c < MAX_TOUCH_INPUTS` resets every
button bound to `c` to `BUTTON_RELEASED` with no bound contact and every
joystick bound to `c` to inactive with zero displacement and direction;
every button and joystick bound to a different contact (and all their
texture regions and bounds) is left entirely unchanged. -/
theorem C5_release_resets (g : Gamepad) (x y : ℝ) (c : ℕ)
    (hc : c < MAX_TOUCH_INPUTS) :
    (∀ i b, g.buttons.get? i = some b →
      (b.contactIndex = some c →
        (g.touch x y .TOUCH_RELEASE c).buttons.get? i =
          some { b with contactIndex := none, pressed := .BUTTON_RELEASED }) ∧
      (b.contactIndex ≠ some c →
        (g.touch x y .TOUCH_RELEASE c).buttons.get? i = some b)) ∧
    (∀ i j, g.joysticks.get? i = some j →
      (j.contactIndex = some c →
        (g.touch x y .TOUCH_RELEASE c).joysticks.get? i =
          some { j with contactIndex := none, displacement := ⟨0, 0⟩,
                        direction := ⟨0, 0⟩ }) ∧
      (j.contactIndex ≠ some c →
        (g.touch x y .TOUCH_RELEASE c).joysticks.get? i = some j)) := by
  constructor
  · intro i b hb
    have hres : (g.touch x y .TOUCH_RELEASE c).buttons.get? i =
        some (touchButton x y .TOUCH_RELEASE c b) := by
      rw [touch_buttons_of_lt g x y .TOUCH_RELEASE c hc, List.get?_map, hb]
      rfl
    constructor
    · intro hbound
      rw [hres]
      unfold touchButton
      rw [if_pos hbound]
    · intro hother
      rw [hres]
      unfold touchButton
      rw [if_neg hother]
  · intro i j hj
    have hres : (g.touch x y .TOUCH_RELEASE c).joysticks.get? i =
        some (touchJoystick x y .TOUCH_RELEASE c j) := by
      rw [touch_joysticks_of_lt g x y .TOUCH_RELEASE c hc, List.get?_map, hj]
      rfl
    constructor
    · intro hbound
      rw [hres]
      unfold touchJoystick
      rw [if_pos hbound]
    · intro hother
      rw [hres]
      unfold touchJoystick
      rw [if_neg hother]

/-- C6: a `TOUCH_PRESS` at `(x, y)` with contact `c < MAX_TOUCH_INPUTS` binds
a joystick with no bound contact if and only if `(x, y)` lies in the closed
box `[bx - r, bx + r] × [by - r, by + r]` around the inner region position
`(bx, by)` with `r` the joystick's radius. -/
theorem C6_press_binds_iff (g : Gamepad) (x y : ℝ) (c : ℕ)
    (hc : c < MAX_TOUCH_INPUTS) (i : ℕ) (j : Joystick)
    (hj : g.joysticks.get? i = some j) (h0 : j.contactIndex = none) :
    ∀ j', (g.touch x y .TOUCH_PRESS c).joysticks.get? i = some j' →
      (j'.contactIndex = some c ↔
        (j.regionInner.x - j.radius ≤ x ∧ x ≤ j.regionInner.x + j.radius ∧
         j.regionInner.y - j.radius ≤ y ∧ y ≤ j.regionInner.y + j.radius)) := by
  intro j' hj'
  have hres : (g.touch x y .TOUCH_PRESS c).joysticks.get? i =
      some (touchJoystick x y .TOUCH_PRESS c j) := by
    rw [touch_joysticks_of_lt g x y .TOUCH_PRESS c hc, List.get?_map, hj]
    rfl
  rw [hres] at hj'
  have hj'eq : touchJoystick x y .TOUCH_PRESS c j = j' := Option.some.inj hj'
  subst hj'eq
  by_cases hbox : j.regionInner.x - j.radius ≤ x ∧ x ≤ j.regionInner.x + j.radius ∧
      j.regionInner.y - j.radius ≤ y ∧ y ≤ j.regionInner.y + j.radius
  · have hpress : touchJoystickPress x y c j =
        { j with contactIndex := some c, displacement := ⟨0, 0⟩,
                 direction := ⟨0, 0⟩ } := by
      unfold touchJoystickPress
      rw [if_pos ⟨hbox.1, hbox.2.1, hbox.2.2.1, hbox.2.2.2, h0⟩]
    have hcontact : (touchJoystick x y .TOUCH_PRESS c j).contactIndex = some c := by
      show (touchJoystickMove x y c (touchJoystickPress x y c j)).contactIndex = some c
      rw [hpress]
      unfold touchJoystickMove
      rw [if_pos rfl]
    simp [hcontact, hbox]
  · have hpress : touchJoystickPress x y c j = j := by
      unfold touchJoystickPress
      rw [if_neg]
      intro hcond
      exact hbox ⟨hcond.1, hcond.2.1, hcond.2.2.1, hcond.2.2.2.1⟩
    have hcontact : (touchJoystick x y .TOUCH_PRESS c j).contactIndex = j.contactIndex := by
      show (touchJoystickMove x y c (touchJoystickPress x y c j)).contactIndex = j.contactIndex
      rw [hpress]
      unfold touchJoystickMove
      rw [if_neg (by simp [h0])]
    rw [hcontact, h0]
    constructor
    · intro hfalse
      exact absurd hfalse (by simp)
    · intro hb
      exact absurd hb hbox

/-- C2: a `TOUCH_MOVE` at `(x, y)` handled by a joystick bound to this
contact with positive radius `r` stores the unclamped displacement
`(dx, dy) = (x - inner.x, y - inner.y)`; the direction becomes
`(dx / r, -dy / r)` when `dx² + dy² ≤ r²` and otherwise the unit vector in
the direction of `(dx, -dy)`. -/
theorem C2_move_updates (g : Gamepad) (x y : ℝ) (c : ℕ)
    (hc : c < MAX_TOUCH_INPUTS) (i : ℕ) (j : Joystick)
    (hj : g.joysticks.get? i = some j) (hbound : j.contactIndex = some c)
    (hr : 0 < j.radius) :
    ∀ j', (g.touch x y .TOUCH_MOVE c).joysticks.get? i = some j' →
      j'.displacement = ⟨x - j.regionInner.x, y - j.regionInner.y⟩ ∧
      ((x - j.regionInner.x) * (x - j.regionInner.x) +
          (y - j.regionInner.y) * (y - j.regionInner.y) ≤ j.radius * j.radius →
        j'.direction = ⟨(x - j.regionInner.x) / j.radius,
          -((y - j.regionInner.y) / j.radius)⟩) ∧
      (¬ ((x - j.regionInner.x) * (x - j.regionInner.x) +
          (y - j.regionInner.y) * (y - j.regionInner.y) ≤ j.radius * j.radius) →
        j'.direction = ⟨(x - j.regionInner.x) /
            Real.sqrt ((x - j.regionInner.x) * (x - j.regionInner.x) +
              (y - j.regionInner.y) * (y - j.regionInner.y)),
          -((y - j.regionInner.y) /
            Real.sqrt ((x - j.regionInner.x) * (x - j.regionInner.x) +
              (y - j.regionInner.y) * (y - j.regionInner.y)))⟩) := by
  intro j' hj'
  have hres : (g.touch x y .TOUCH_MOVE c).joysticks.get? i =
      some (touchJoystickMove x y c j) := by
    rw [touch_joysticks_of_lt g x y .TOUCH_MOVE c hc, List.get?_map, hj]
    rfl
  rw [hres] at hj'
  have hj'eq : touchJoystickMove x y c j = j' := Option.some.inj hj'
  subst hj'eq
  have hdisp : (touchJoystickMove x y c j).displacement =
      ⟨x - j.regionInner.x, y - j.regionInner.y⟩ := by
    unfold touchJoystickMove
    rw [if_pos hbound]
  have hdir : (touchJoystickMove x y c j).direction =
      (if (x - j.regionInner.x) * (x - j.regionInner.x) +
          (y - j.regionInner.y) * (y - j.regionInner.y) ≤ j.radius * j.radius then
        Vector2.scale (1 / j.radius) ⟨x - j.regionInner.x, -(y - j.regionInner.y)⟩
      else
        Vector2.normalize (Vector2.scale j.radius
          (Vector2.normalize ⟨x - j.regionInner.x, -(y - j.regionInner.y)⟩))) := by
    unfold touchJoystickMove
    rw [if_pos hbound]
  refine ⟨hdisp, ?_, ?_⟩
  · intro hwithin
    rw [hdir, if_pos hwithin]
    simp only [Vector2.scale, Vector2.mk.injEq]
    constructor <;> ring
  · intro hout
    rw [hdir, if_neg hout]
    have hnv : (⟨x - j.regionInner.x, -(y - j.regionInner.y)⟩ : Vector2).normSq =
        (x - j.regionInner.x) * (x - j.regionInner.x) +
          (y - j.regionInner.y) * (y - j.regionInner.y) := by
      simp only [Vector2.normSq]
      ring
    have hpos : (0:ℝ) < (x - j.regionInner.x) * (x - j.regionInner.x) +
        (y - j.regionInner.y) * (y - j.regionInner.y) :=
      lt_of_le_of_lt (mul_self_nonneg j.radius) (not_le.mp hout)
    have hne : (⟨x - j.regionInner.x, -(y - j.regionInner.y)⟩ : Vector2).normSq ≠ 0 := by
      rw [hnv]
      exact ne_of_gt hpos
    rw [Vector2.normalize_scale_normalize _ _ hr hne,
      Vector2.normalize_div_form _ hne, hnv]
    simp only [Vector2.mk.injEq]
    constructor <;> ring

/-- C8: the `TOUCH_PRESS` case for joysticks falls through into the
`TOUCH_MOVE` case, so a press that activates a joystick leaves the
displacement equal to `(x - inner.x, y - inner.y)` and the direction
computed from it, not the zero vectors the press handler first assigns. -/
theorem C8_press_falls_through (g : Gamepad) (x y : ℝ) (c : ℕ)
    (hc : c < MAX_TOUCH_INPUTS) (i : ℕ) (j : Joystick)
    (hj : g.joysticks.get? i = some j) (h0 : j.contactIndex = none)
    (hx1 : j.regionInner.x - j.radius ≤ x) (hx2 : x ≤ j.regionInner.x + j.radius)
    (hy1 : j.regionInner.y - j.radius ≤ y) (hy2 : y ≤ j.regionInner.y + j.radius) :
    ∀ j', (g.touch x y .TOUCH_PRESS c).joysticks.get? i = some j' →
      j'.contactIndex = some c ∧
      j'.displacement = ⟨x - j.regionInner.x, y - j.regionInner.y⟩ ∧
      ((x - j.regionInner.x) * (x - j.regionInner.x) +
          (y - j.regionInner.y) * (y - j.regionInner.y) ≤ j.radius * j.radius →
        j'.direction = ⟨(x - j.regionInner.x) / j.radius,
          -((y - j.regionInner.y) / j.radius)⟩) ∧
      (¬ ((x - j.regionInner.x) * (x - j.regionInner.x) +
          (y - j.regionInner.y) * (y - j.regionInner.y) ≤ j.radius * j.radius) →
        j'.direction = ⟨(x - j.regionInner.x) /
            Real.sqrt ((x - j.regionInner.x) * (x - j.regionInner.x) +
              (y - j.regionInner.y) * (y - j.regionInner.y)),
          -((y - j.regionInner.y) /
            Real.sqrt ((x - j.regionInner.x) * (x - j.regionInner.x) +
              (y - j.regionInner.y) * (y - j.regionInner.y)))⟩) := by
  intro j' hj'
  have hres : (g.touch x y .TOUCH_PRESS c).joysticks.get? i =
      some (touchJoystick x y .TOUCH_PRESS c j) := by
    rw [touch_joysticks_of_lt g x y .TOUCH_PRESS c hc, List.get?_map, hj]
    rfl
  rw [hres] at hj'
  have hj'eq : touchJoystick x y .TOUCH_PRESS c j = j' := Option.some.inj hj'
  subst hj'eq
  have hpress : touchJoystickPress x y c j =
      { j with contactIndex := some c, displacement := ⟨0, 0⟩,
               direction := ⟨0, 0⟩ } := by
    unfold touchJoystickPress
    rw [if_pos ⟨hx1, hx2, hy1, hy2, h0⟩]
  have hstep : touchJoystick x y .TOUCH_PRESS c j =
      touchJoystickMove x y c
        { j with contactIndex := some c, displacement := ⟨0, 0⟩,
                 direction := ⟨0, 0⟩ } := by
    show touchJoystickMove x y c (touchJoystickPress x y c j) = _
    rw [hpress]
  rw [hstep]
  have hcontact : (touchJoystickMove x y c
      { j with contactIndex := some c, displacement := ⟨0, 0⟩,
               direction := ⟨0, 0⟩ }).contactIndex = some c := by
    unfold touchJoystickMove
    rw [if_pos rfl]
  have hdisp : (touchJoystickMove x y c
      { j with contactIndex := some c, displacement := ⟨0, 0⟩,
               direction := ⟨0, 0⟩ }).displacement =
      ⟨x - j.regionInner.x, y - j.regionInner.y⟩ := by
    unfold touchJoystickMove
    rw [if_pos rfl]
  have hdir : (touchJoystickMove x y c
      { j with contactIndex := some c, displacement := ⟨0, 0⟩,
               direction := ⟨0, 0⟩ }).direction =
      (if (x - j.regionInner.x) * (x - j.regionInner.x) +
          (y - j.regionInner.y) * (y - j.regionInner.y) ≤ j.radius * j.radius then
        Vector2.scale (1 / j.radius) ⟨x - j.regionInner.x, -(y - j.regionInner.y)⟩
      else
        Vector2.normalize (Vector2.scale j.radius
          (Vector2.normalize ⟨x - j.regionInner.x, -(y - j.regionInner.y)⟩))) := by
    unfold touchJoystickMove
    rw [if_pos rfl]
  refine ⟨hcontact, hdisp, ?_, ?_⟩
  · intro hwithin
    rw [hdir, if_pos hwithin]
    simp only [Vector2.scale, Vector2.mk.injEq]
    constructor <;> ring
  · intro hout
    have hr0 : 0 ≤ j.radius := by linarith
    have hr : 0 < j.radius := by
      rcases eq_or_lt_of_le hr0 with heq | hlt
      · exfalso
        apply hout
        have hxx : x - j.regionInner.x = 0 := by linarith
        have hyy : y - j.regionInner.y = 0 := by linarith
        rw [hxx, hyy]
        simpa using mul_self_nonneg j.radius
      · exact hlt
    rw [hdir, if_neg hout]
    have hnv : (⟨x - j.regionInner.x, -(y - j.regionInner.y)⟩ : Vector2).normSq =
        (x - j.regionInner.x) * (x - j.regionInner.x) +
          (y - j.regionInner.y) * (y - j.regionInner.y) := by
      simp only [Vector2.normSq]
      ring
    have hpos : (0:ℝ) < (x - j.regionInner.x) * (x - j.regionInner.x) +
        (y - j.regionInner.y) * (y - j.regionInner.y) :=
      lt_of_le_of_lt (mul_self_nonneg j.radius) (not_le.mp hout)
    have hne : (⟨x - j.regionInner.x, -(y - j.regionInner.y)⟩ : Vector2).normSq ≠ 0 := by
      rw [hnv]
      exact ne_of_gt hpos
    rw [Vector2.normalize_scale_normalize _ _ hr hne,
      Vector2.normalize_div_form _ hne, hnv]
    simp only [Vector2.mk.injEq]
    constructor <;> ring

/-- C4: in `Gamepad::draw`, the inner joggle of a joystick with its inner
default texture enabled is centred at the inner region position offset by
the displacement when its squared magnitude is at most `radius²`, and
otherwise by the displacement rescaled to magnitude exactly `radius`; the
offset's magnitude never exceeds the radius. -/
theorem C4_draw_inner_clamped (j : Joystick)
    (he : j.defaultTextureInnerEnabled = true) (hr : 0 ≤ j.radius) :
    (j.displacement.x * j.displacement.x + j.displacement.y * j.displacement.y ≤
        j.radius * j.radius →
      j.drawInnerCenter = ⟨j.regionInner.x + j.displacement.x,
        j.regionInner.y + j.displacement.y⟩) ∧
    (¬ (j.displacement.x * j.displacement.x + j.displacement.y * j.displacement.y ≤
        j.radius * j.radius) →
      j.drawInnerOffset =
        ⟨j.displacement.x * (j.radius /
            Real.sqrt (j.displacement.x * j.displacement.x +
              j.displacement.y * j.displacement.y)),
         j.displacement.y * (j.radius /
            Real.sqrt (j.displacement.x * j.displacement.x +
              j.displacement.y * j.displacement.y))⟩ ∧
      Real.sqrt j.drawInnerOffset.normSq = j.radius) ∧
    Real.sqrt j.drawInnerOffset.normSq ≤ j.radius := by
  have hnd : (⟨j.displacement.x, j.displacement.y⟩ : Vector2).normSq =
      j.displacement.x * j.displacement.x + j.displacement.y * j.displacement.y := by
    simp only [Vector2.normSq]
  have hwithin_off : ∀ _ : j.displacement.x * j.displacement.x +
      j.displacement.y * j.displacement.y ≤ j.radius * j.radius,
      j.drawInnerOffset = ⟨j.displacement.x, j.displacement.y⟩ := by
    intro hin
    unfold Joystick.drawInnerOffset
    rw [if_pos hin]
  have hout_off : ∀ _ : ¬ (j.displacement.x * j.displacement.x +
      j.displacement.y * j.displacement.y ≤ j.radius * j.radius),
      j.drawInnerOffset = Vector2.scale j.radius
        (Vector2.normalize ⟨j.displacement.x, j.displacement.y⟩) := by
    intro hout
    unfold Joystick.drawInnerOffset
    rw [if_neg hout]
  refine ⟨?_, ?_, ?_⟩
  · intro hin
    unfold Joystick.drawInnerCenter
    rw [hwithin_off hin]
  · intro hout
    have hpos : (0:ℝ) < j.displacement.x * j.displacement.x +
        j.displacement.y * j.displacement.y :=
      lt_of_le_of_lt (mul_self_nonneg j.radius) (not_le.mp hout)
    have hne : (⟨j.displacement.x, j.displacement.y⟩ : Vector2).normSq ≠ 0 := by
      rw [hnd]
      exact ne_of_gt hpos
    constructor
    · rw [hout_off hout, Vector2.normalize_div_form _ hne, hnd]
      simp only [Vector2.scale, Vector2.mk.injEq]
      constructor <;> ring
    · rw [hout_off hout, Vector2.normSq_scale, Vector2.normSq_normalize _ hne,
        one_mul]
      exact Real.sqrt_mul_self hr
  · by_cases hin : j.displacement.x * j.displacement.x +
        j.displacement.y * j.displacement.y ≤ j.radius * j.radius
    · rw [hwithin_off hin]
      calc Real.sqrt (⟨j.displacement.x, j.displacement.y⟩ : Vector2).normSq ≤
          Real.sqrt (j.radius * j.radius) := by
            apply Real.sqrt_le_sqrt
            rw [hnd]
            exact hin
        _ = j.radius := Real.sqrt_mul_self hr
    · have hpos : (0:ℝ) < j.displacement.x * j.displacement.x +
          j.displacement.y * j.displacement.y :=
        lt_of_le_of_lt (mul_self_nonneg j.radius) (not_le.mp hin)
      have hne : (⟨j.displacement.x, j.displacement.y⟩ : Vector2).normSq ≠ 0 := by
        rw [hnd]
        exact ne_of_gt hpos
      rw [hout_off hin, Vector2.normSq_scale, Vector2.normSq_normalize _ hne,
        one_mul, Real.sqrt_mul_self hr]

theorem C4_witness :
    (joystickC4.defaultTextureInnerEnabled = true ∧ 0 ≤ joystickC4.radius ∧
      joystickC4.displacement.x * joystickC4.displacement.x +
        joystickC4.displacement.y * joystickC4.displacement.y ≤
        joystickC4.radius * joystickC4.radius) ∧
    joystickC4.drawInnerCenter = ⟨joystickC4.regionInner.x + joystickC4.displacement.x,
      joystickC4.regionInner.y + joystickC4.displacement.y⟩ ∧
    Real.sqrt joystickC4.drawInnerOffset.normSq ≤ joystickC4.radius := by
  have hin : joystickC4.displacement.x * joystickC4.displacement.x +
      joystickC4.displacement.y * joystickC4.displacement.y ≤
      joystickC4.radius * joystickC4.radius := by
    show (3:ℝ) * 3 + 4 * 4 ≤ 5 * 5
    norm_num
  have h := C4_draw_inner_clamped joystickC4 rfl (by show (0:ℝ) ≤ 5; norm_num)
  exact ⟨⟨rfl, by show (0:ℝ) ≤ 5; norm_num, hin⟩, h.1 hin, h.2.2⟩

theorem normSq_direction_press (x y : ℝ) (c : ℕ) (j : Joystick)
    (h : j.direction.normSq ≤ 1) :
    (touchJoystickPress x y c j).direction.normSq ≤ 1 := by
  unfold touchJoystickPress
  dsimp only
  split
  · simp [Vector2.normSq]
  · exact h

theorem normSq_direction_move (x y : ℝ) (c : ℕ) (j : Joystick)
    (h : j.direction.normSq ≤ 1) :
    (touchJoystickMove x y c j).direction.normSq ≤ 1 := by
  unfold touchJoystickMove
  split
  · dsimp only
    split
    · rename_i hin
      rw [Vector2.normSq_scale]
      have hnv : (⟨x - j.regionInner.x, -(y - j.regionInner.y)⟩ : Vector2).normSq =
          (x - j.regionInner.x) * (x - j.regionInner.x) +
            (y - j.regionInner.y) * (y - j.regionInner.y) := by
        simp only [Vector2.normSq]
        ring
      rw [hnv]
      rcases eq_or_ne j.radius 0 with h0 | h0
      · rw [h0]
        norm_num
      · have hs : (0:ℝ) ≤ 1 / j.radius * (1 / j.radius) := mul_self_nonneg _
        calc ((x - j.regionInner.x) * (x - j.regionInner.x) +
              (y - j.regionInner.y) * (y - j.regionInner.y)) *
              (1 / j.radius * (1 / j.radius)) ≤
            (j.radius * j.radius) * (1 / j.radius * (1 / j.radius)) :=
              mul_le_mul_of_nonneg_right hin hs
          _ = (j.radius * (1 / j.radius)) * (j.radius * (1 / j.radius)) := by ring
          _ = 1 := by rw [mul_one_div_cancel h0]; norm_num
    · exact Vector2.normSq_normalize_le_one _
  · exact h

theorem applySet_direction (tw th : ℝ)
    (ri tri ro tro : Option Rect) (r : ℝ) (j : Joystick) :
    (Joystick.applySet tw th ri tri ro tro r j).direction = j.direction := by
  unfold Joystick.applySet
  cases ri <;> cases tri <;> cases ro <;> cases tro <;> rfl

theorem dirOk_touch (g : Gamepad) (x y : ℝ) (touchEvent : TouchEvent) (c : ℕ)
    (h : dirOk g) : dirOk (g.touch x y touchEvent c) := by
  unfold Gamepad.touch
  split
  · exact h
  · intro j hj
    rcases List.mem_map.mp hj with ⟨j0, hj0, rfl⟩
    have h0 := h j0 hj0
    cases touchEvent with
    | TOUCH_PRESS =>
      exact normSq_direction_move x y c _ (normSq_direction_press x y c j0 h0)
    | TOUCH_MOVE =>
      exact normSq_direction_move x y c j0 h0
    | TOUCH_RELEASE =>
      show (if j0.contactIndex = some c then _ else j0).direction.normSq ≤ 1
      split
      · simp [Vector2.normSq]
      · exact h0

theorem dirOk_applyOp (g g' : Gamepad) (op : GamepadOp) (h : dirOk g)
    (happ : applyOp g op = some g') : dirOk g' := by
  cases op with
  | touch x y touchEvent c =>
    have : g.touch x y touchEvent c = g' := Option.some.inj happ
    subst this
    exact dirOk_touch g x y touchEvent c h
  | setButton i bounds dtr ftr =>
    have happ' : g.setButton i bounds dtr ftr = some g' := happ
    unfold Gamepad.setButton at happ'
    split at happ'
    · have heq := Option.some.inj happ'
      subst heq
      intro j hj
      exact h j hj
    · cases happ'
  | setJoystick i ri tri ro tro r =>
    have happ' : g.setJoystick i ri tri ro tro r = some g' := happ
    unfold Gamepad.setJoystick at happ'
    split at happ'
    · have heq := Option.some.inj happ'
      subst heq
      intro j hj
      refine forall_mem_updateNth g.joysticks _ _ h ?_ j hj
      intro a ha
      rw [applySet_direction]
      exact h a ha
    · cases happ'

theorem dirOk_applyOps (ops : List GamepadOp) :
    ∀ g g', dirOk g → applyOps g ops = some g' → dirOk g' := by
  induction ops with
  | nil =>
    intro g g' h happ
    have : g = g' := Option.some.inj happ
    subst this
    exact h
  | cons op ops ih =>
    intro g g' h happ
    unfold applyOps at happ
    cases hop : applyOp g op with
    | none =>
      rw [hop] at happ
      cases happ
    | some g1 =>
      rw [hop] at happ
      exact ih g1 g' (dirOk_applyOp g g1 op h hop) happ

theorem dirOk_init (tw th : ℝ) (nj nb : ℕ) : dirOk (Gamepad.init tw th nj nb) := by
  intro j hj
  have := List.eq_of_mem_replicate hj
  subst this
  simp [Joystick.init, Vector2.normSq]

/-- C9: for every joystick with positive radius, in every gamepad reachable
from the freshly constructed state by any finite sequence of `touch`,
`setButton` and `setJoystick` calls, the magnitude of the direction vector
is at most 1. -/
theorem C9_direction_bounded (tw th : ℝ) (nj nb : ℕ) (ops : List GamepadOp)
    (g' : Gamepad) (h : applyOps (Gamepad.init tw th nj nb) ops = some g')
    (j : Joystick) (hj : j ∈ g'.joysticks) (hr : 0 < j.radius) :
    Real.sqrt j.direction.normSq ≤ 1 :=
  Real.sqrt_le_one.mpr (dirOk_applyOps ops _ g' (dirOk_init tw th nj nb) h j hj)

theorem C9_witness :
    (applyOps (Gamepad.init 64 64 1 1)
        [GamepadOp.setJoystick 0 none none none none 5] = some gamepadC9 ∧
      joystickC9 ∈ gamepadC9.joysticks ∧ 0 < joystickC9.radius) ∧
    Real.sqrt joystickC9.direction.normSq ≤ 1 := by
  have happ : applyOps (Gamepad.init 64 64 1 1)
      [GamepadOp.setJoystick 0 none none none none 5] = some gamepadC9 := by
    simp [applyOps, applyOp, Gamepad.setJoystick, Gamepad.init, updateNth,
      Joystick.applySet, gamepadC9, joystickC9, List.replicate]
  have hmem : joystickC9 ∈ gamepadC9.joysticks := by
    simp [gamepadC9]
  have hrad : 0 < joystickC9.radius := by
    show (0:ℝ) < 5
    norm_num
  exact ⟨⟨happ, hmem, hrad⟩,
    C9_direction_bounded 64 64 1 1 _ gamepadC9 happ joystickC9 hmem hrad⟩

theorem touchPressEval :
    (gamepadEx.touch 3 4 .TOUCH_PRESS 0).joysticks.get? 0 = some joystickC6 := by
  norm_num [gamepadEx, joystickEx, joystickC6, Joystick.init, Gamepad.touch,
    MAX_TOUCH_INPUTS, touchJoystick, touchJoystickPress, touchJoystickMove,
    Vector2.scale]

theorem touchMoveEval :
    (gamepadBound.touch 3 4 .TOUCH_MOVE 0).joysticks.get? 0 = some joystickC6 := by
  norm_num [gamepadBound, joystickBound, joystickEx, joystickC6, Joystick.init,
    Gamepad.touch, MAX_TOUCH_INPUTS, touchJoystick, touchJoystickMove,
    Vector2.scale]

theorem C1_witness :
    (0 < MAX_TOUCH_INPUTS ∧ gamepadEx.buttons.get? 0 = some buttonEx ∧
      buttonEx.contactIndex = none ∧
      buttonEx.region.x ≤ 15 ∧ (15:ℝ) ≤ buttonEx.region.x + buttonEx.region.width ∧
      buttonEx.region.y ≤ 25 ∧ (25:ℝ) ≤ buttonEx.region.y + buttonEx.region.height) ∧
    (gamepadEx.touch 15 25 .TOUCH_PRESS 0).buttons.get? 0 =
      some { buttonEx with contactIndex := some 0, pressed := .BUTTON_PRESSED } ∧
    (gamepadEx.touch 15 25 .TOUCH_PRESS 0).getButtonState 0 =
      some ButtonState.BUTTON_PRESSED := by
  have h := (C1_press_buttons gamepadEx 15 25 0 (by decide) 0 buttonEx rfl).1
    rfl (by show (10:ℝ) ≤ 15; norm_num) (by show (15:ℝ) ≤ 10 + 30; norm_num)
    (by show (20:ℝ) ≤ 25; norm_num) (by show (25:ℝ) ≤ 20 + 40; norm_num)
  exact ⟨⟨by decide, rfl, rfl, by show (10:ℝ) ≤ 15; norm_num,
    by show (15:ℝ) ≤ 10 + 30; norm_num, by show (20:ℝ) ≤ 25; norm_num,
    by show (25:ℝ) ≤ 20 + 40; norm_num⟩, h.1, h.2⟩

theorem C5_witness :
    (0 < MAX_TOUCH_INPUTS ∧
      gamepadBound.buttons.get? 0 =
        some { buttonEx with contactIndex := some 0, pressed := ButtonState.BUTTON_PRESSED } ∧
      gamepadBound.joysticks.get? 0 = some joystickBound ∧
      joystickBound.contactIndex = some 0) ∧
    (gamepadBound.touch 0 0 .TOUCH_RELEASE 0).buttons.get? 0 =
      some { buttonEx with contactIndex := none, pressed := ButtonState.BUTTON_RELEASED } ∧
    (gamepadBound.touch 0 0 .TOUCH_RELEASE 0).joysticks.get? 0 =
      some { joystickBound with contactIndex := none, displacement := ⟨0, 0⟩, direction := ⟨0, 0⟩ } := by
  have h := C5_release_resets gamepadBound 0 0 0 (by decide)
  exact ⟨⟨by decide, rfl, rfl, rfl⟩,
    (h.1 0 _ rfl).1 rfl, (h.2 0 _ rfl).1 rfl⟩

theorem C6_witness :
    (0 < MAX_TOUCH_INPUTS ∧ gamepadEx.joysticks.get? 0 = some joystickEx ∧
      joystickEx.contactIndex = none ∧
      (gamepadEx.touch 3 4 .TOUCH_PRESS 0).joysticks.get? 0 = some joystickC6) ∧
    (joystickC6.contactIndex = some 0 ↔
      (joystickEx.regionInner.x - joystickEx.radius ≤ 3 ∧
        (3:ℝ) ≤ joystickEx.regionInner.x + joystickEx.radius ∧
        joystickEx.regionInner.y - joystickEx.radius ≤ 4 ∧
        (4:ℝ) ≤ joystickEx.regionInner.y + joystickEx.radius)) :=
  ⟨⟨by decide, rfl, rfl, touchPressEval⟩,
    C6_press_binds_iff gamepadEx 3 4 0 (by decide) 0 joystickEx rfl rfl
      joystickC6 touchPressEval⟩

theorem C2_witness :
    (0 < MAX_TOUCH_INPUTS ∧ gamepadBound.joysticks.get? 0 = some joystickBound ∧
      joystickBound.contactIndex = some 0 ∧ 0 < joystickBound.radius ∧
      (gamepadBound.touch 3 4 .TOUCH_MOVE 0).joysticks.get? 0 = some joystickC6) ∧
    joystickC6.displacement =
      ⟨3 - joystickBound.regionInner.x, 4 - joystickBound.regionInner.y⟩ ∧
    joystickC6.direction = ⟨(3 - joystickBound.regionInner.x) / joystickBound.radius,
      -((4 - joystickBound.regionInner.y) / joystickBound.radius)⟩ := by
  have h := C2_move_updates gamepadBound 3 4 0 (by decide) 0 joystickBound rfl rfl
    (by show (0:ℝ) < 5; norm_num) joystickC6 touchMoveEval
  exact ⟨⟨by decide, rfl, rfl, by show (0:ℝ) < 5; norm_num, touchMoveEval⟩,
    h.1, h.2.1 (by show ((3:ℝ) - 0) * ((3:ℝ) - 0) + ((4:ℝ) - 0) * ((4:ℝ) - 0) ≤ 5 * 5; norm_num)⟩

theorem C8_witness :
    (0 < MAX_TOUCH_INPUTS ∧ gamepadEx.joysticks.get? 0 = some joystickEx ∧
      joystickEx.contactIndex = none ∧
      joystickEx.regionInner.x - joystickEx.radius ≤ 3 ∧
      (3:ℝ) ≤ joystickEx.regionInner.x + joystickEx.radius ∧
      joystickEx.regionInner.y - joystickEx.radius ≤ 4 ∧
      (4:ℝ) ≤ joystickEx.regionInner.y + joystickEx.radius ∧
      (gamepadEx.touch 3 4 .TOUCH_PRESS 0).joysticks.get? 0 = some joystickC6) ∧
    joystickC6.contactIndex = some 0 ∧
    joystickC6.displacement =
      ⟨3 - joystickEx.regionInner.x, 4 - joystickEx.regionInner.y⟩ ∧
    joystickC6.direction = ⟨(3 - joystickEx.regionInner.x) / joystickEx.radius,
      -((4 - joystickEx.regionInner.y) / joystickEx.radius)⟩ := by
  have h := C8_press_falls_through gamepadEx 3 4 0 (by decide) 0 joystickEx rfl rfl
    (by show (0:ℝ) - 5 ≤ 3; norm_num) (by show (3:ℝ) ≤ 0 + 5; norm_num)
    (by show (0:ℝ) - 5 ≤ 4; norm_num) (by show (4:ℝ) ≤ 0 + 5; norm_num)
    joystickC6 touchPressEval
  exact ⟨⟨by decide, rfl, rfl, by show (0:ℝ) - 5 ≤ 3; norm_num,
    by show (3:ℝ) ≤ 0 + 5; norm_num, by show (0:ℝ) - 5 ≤ 4; norm_num,
    by show (4:ℝ) ≤ 0 + 5; norm_num, touchPressEval⟩,
    h.1, h.2.1, h.2.2.1 (by show ((3:ℝ) - 0) * ((3:ℝ) - 0) +
      ((4:ℝ) - 0) * ((4:ℝ) - 0) ≤ 5 * 5; norm_num)⟩

theorem regionToUVs_in_unit (tw th : ℝ) (hw : 0 < tw) (hh : 0 < th) (r : Rect)
    (hx : 0 ≤ r.x) (hy : 0 ≤ r.y) (hwd : 0 ≤ r.width) (hht : 0 ≤ r.height)
    (hxw : r.x + r.width ≤ tw) (hyh : r.y + r.height ≤ th) :
    uvInUnit (regionToUVs tw th r) := by
  unfold regionToUVs uvInUnit
  dsimp only
  have h1 : 0 ≤ r.x / tw := div_nonneg hx hw.le
  have h2 : r.x / tw ≤ 1 := (div_le_one hw).mpr (by linarith)
  have h3 : 0 ≤ r.y / th := div_nonneg hy hh.le
  have h4 : r.y / th ≤ 1 := (div_le_one hh).mpr (by linarith)
  have h5 : 0 ≤ r.width / tw := div_nonneg hwd hw.le
  have h6 : 0 ≤ r.height / th := div_nonneg hht hh.le
  have h7 : r.x / tw + r.width / tw ≤ 1 := by
    rw [div_add_div_same]
    exact (div_le_one hw).mpr hxw
  have h8 : r.y / th + r.height / th ≤ 1 := by
    rw [div_add_div_same]
    exact (div_le_one hh).mpr hyh
  refine ⟨h1, h2, ?_, ?_, ?_, ?_, ?_, ?_⟩ <;> linarith

theorem setButton_get?_self (g : Gamepad) (i : ℕ)
    (bounds dtr ftr : Option Rect) (g' : Gamepad)
    (h : g.setButton i bounds dtr ftr = some g') :
    g'.buttons.get? i = (g.buttons.get? i).map
      (Button.applySet g.textureWidth g.textureHeight bounds dtr ftr) := by
  unfold Gamepad.setButton at h
  split at h
  · have heq := Option.some.inj h
    subst heq
    exact updateNth_get?_self g.buttons i _
  · cases h

theorem setJoystick_get?_self (g : Gamepad) (i : ℕ)
    (ri tri ro tro : Option Rect) (radius : ℝ) (g' : Gamepad)
    (h : g.setJoystick i ri tri ro tro radius = some g') :
    g'.joysticks.get? i = (g.joysticks.get? i).map
      (Joystick.applySet g.textureWidth g.textureHeight ri tri ro tro radius) := by
  unfold Gamepad.setJoystick at h
  split at h
  · have heq := Option.some.inj h
    subst heq
    exact updateNth_get?_self g.joysticks i _
  · cases h

/-- C3 fails as stated: the UV computation performs no clamping, so a
default texture region `(128, 0, 0, 0)` passed to `setButton` over the
64 × 64 texture stores `u1 = 128 / 64 = 2`, which is outside `[0, 1]`. -/
theorem C3_counterexample :
    gamepadEx.setButton 0 none (some ⟨128, 0, 0, 0⟩) none = some gamepadC3cex ∧
    gamepadC3cex.buttons.get? 0 = some buttonC3cex ∧
    buttonC3cex.defaultTexCoord.u1 = 2 ∧ ¬ (buttonC3cex.defaultTexCoord.u1 ≤ 1) := by
  refine ⟨rfl, rfl, ?_, ?_⟩
  · show (128:ℝ) / 64 = 2
    norm_num
  · show ¬ ((128:ℝ) / 64 ≤ 1)
    norm_num

/-- C3 (amended): for every region rectangle passed to `setButton` (default
or focus texture region) or `setJoystick` (inner or outer texture region)
that lies within the texture and has nonnegative size, with positive texture
dimensions, the computed UV coordinates all lie in `[0, 1]`. -/
theorem C3_amended_uvs_in_unit (g : Gamepad)
    (hw : 0 < g.textureWidth) (hh : 0 < g.textureHeight) (r : Rect)
    (hx : 0 ≤ r.x) (hy : 0 ≤ r.y) (hwd : 0 ≤ r.width) (hht : 0 ≤ r.height)
    (hxw : r.x + r.width ≤ g.textureWidth) (hyh : r.y + r.height ≤ g.textureHeight)
    (i : ℕ) (radius : ℝ) :
    (∀ g' b, g.setButton i none (some r) none = some g' →
      g'.buttons.get? i = some b → uvInUnit b.defaultTexCoord) ∧
    (∀ g' b, g.setButton i none none (some r) = some g' →
      g'.buttons.get? i = some b → uvInUnit b.focusTexCoord) ∧
    (∀ g' j, g.setJoystick i none (some r) none none radius = some g' →
      g'.joysticks.get? i = some j → uvInUnit j.defaultTexCoordInner) ∧
    (∀ g' j, g.setJoystick i none none none (some r) radius = some g' →
      g'.joysticks.get? i = some j → uvInUnit j.defaultTexCoordOuter) := by
  have huv := regionToUVs_in_unit g.textureWidth g.textureHeight hw hh r
    hx hy hwd hht hxw hyh
  refine ⟨?_, ?_, ?_, ?_⟩
  · intro g' b hset hget
    rw [setButton_get?_self g i none (some r) none g' hset] at hget
    rcases Option.map_eq_some'.mp hget with ⟨b0, hb0, rfl⟩
    show uvInUnit (Button.applySet g.textureWidth g.textureHeight
      none (some r) none b0).defaultTexCoord
    unfold Button.applySet
    dsimp only
    exact huv
  · intro g' b hset hget
    rw [setButton_get?_self g i none none (some r) g' hset] at hget
    rcases Option.map_eq_some'.mp hget with ⟨b0, hb0, rfl⟩
    show uvInUnit (Button.applySet g.textureWidth g.textureHeight
      none none (some r) b0).focusTexCoord
    unfold Button.applySet
    dsimp only
    exact huv
  · intro g' j hset hget
    rw [setJoystick_get?_self g i none (some r) none none radius g' hset] at hget
    rcases Option.map_eq_some'.mp hget with ⟨j0, hj0, rfl⟩
    show uvInUnit (Joystick.applySet g.textureWidth g.textureHeight
      none (some r) none none radius j0).defaultTexCoordInner
    unfold Joystick.applySet
    dsimp only
    exact huv
  · intro g' j hset hget
    rw [setJoystick_get?_self g i none none none (some r) radius g' hset] at hget
    rcases Option.map_eq_some'.mp hget with ⟨j0, hj0, rfl⟩
    show uvInUnit (Joystick.applySet g.textureWidth g.textureHeight
      none none none (some r) radius j0).defaultTexCoordOuter
    unfold Joystick.applySet
    dsimp only
    exact huv

theorem C3_witness :
    (0 < gamepadEx.textureWidth ∧ 0 < gamepadEx.textureHeight ∧
      (0:ℝ) + 64 ≤ gamepadEx.textureWidth ∧ (0:ℝ) + 64 ≤ gamepadEx.textureHeight ∧
      gamepadEx.setButton 0 none (some ⟨0, 0, 64, 64⟩) none = some gamepadC3w ∧
      gamepadC3w.buttons.get? 0 = some buttonC3w) ∧
    uvInUnit buttonC3w.defaultTexCoord := by
  have h := (C3_amended_uvs_in_unit gamepadEx
    (by show (0:ℝ) < 64; norm_num) (by show (0:ℝ) < 64; norm_num)
    ⟨0, 0, 64, 64⟩ le_rfl le_rfl (by show (0:ℝ) ≤ 64; norm_num)
    (by show (0:ℝ) ≤ 64; norm_num) (by show (0:ℝ) + 64 ≤ 64; norm_num)
    (by show (0:ℝ) + 64 ≤ 64; norm_num) 0 0).1 gamepadC3w buttonC3w rfl rfl
  exact ⟨⟨by show (0:ℝ) < 64; norm_num, by show (0:ℝ) < 64; norm_num,
    by show (0:ℝ) + 64 ≤ 64; norm_num, by show (0:ℝ) + 64 ≤ 64; norm_num,
    rfl, rfl⟩, h⟩

end

end GamePlay
